import Mathlib

/-!
Verification of the `go-xml-validator` repository (two near-duplicate CLI
entry points: `main.go`, plain output, and an unnamed colored variant).

Modelling conventions:
* A Go `[]byte` / `string` holding document data is a `List Nat` of byte
  values (`Bytes`).  All scanning in the source is byte/rune oriented; the
  characters the checkers look for are ASCII, and multi-byte or invalid
  UTF-8 sequences decode to runes ≥ U+0080 (or U+FFFD), which never satisfy
  any of the scanned-for character tests, so a byte-level scan produces the
  same matches at the same byte indices as the Go rune loops (noted at each
  definition concerned).
* The Go `regexp` package (RE2 syntax, leftmost-first matching) is modelled by
  hand-written matcher functions, one per pattern literal of the source;
  each carries the pattern it implements.  RE2 rejects the Perl lookaround
  syntax `(?!` / `(?=`; `regexp.MustCompile` panics on such a pattern.  A
  panic is modelled by `Option`: a function that can panic returns `none`
  in exactly the situations where the Go code panics.
* Scans that jump forward (`FindAll...` resumption) take a fuel argument so
  that they are structurally recursive and kernel-computable; callers pass
  the length of the scanned line, which always suffices because every
  recursive call consumes at least as many bytes as fuel units.
-/

namespace XmlValidator

/-- Byte strings: a Go `[]byte` or `string` as the list of its byte values. -/
abbrev Bytes := List Nat

/-- `ValidationError` from the source (both entry points declare it identically):
line number, column, the text of the line, an error-type tag, a human message
and the `Content` substring used for highlighting. -/
structure ValidationError where
  lineNumber : Nat
  column : Nat
  line : Bytes
  errorType : String
  message : String
  content : Bytes
deriving DecidableEq, Repr

/-- Bytes of a string literal (ASCII in every use below). -/
def strBytes (s : String) : Bytes := s.data.map Char.toNat

/-- Go `string(bs)` applied to ASCII bytes, used when a byte slice is
interpolated into a message with `%s`. -/
def bytesToStr (bs : Bytes) : String := String.mk (bs.map Char.ofNat)

/-- `pat` is a prefix of `l` (contiguous, anchored at the head). -/
def seqPre {α : Type} [DecidableEq α] : List α → List α → Bool
  | [], _ => true
  | _ :: _, [] => false
  | p :: ps, x :: xs => p = x && seqPre ps xs

/-- `pat` occurs contiguously somewhere in `l` (Go `regexp.MatchString` for a
literal pattern / `bytes.Contains`). -/
def seqIn {α : Type} [DecidableEq α] (pat : List α) : List α → Bool
  | [] => pat.isEmpty
  | x :: xs => seqPre pat (x :: xs) || seqIn pat xs

/-- All indices (ascending) at which `pat` occurs in `l`. -/
def occList {α : Type} [DecidableEq α] (pat : List α) : List α → List Nat
  | [] => if pat.isEmpty then [0] else []
  | x :: xs =>
      let rest := (occList pat xs).map (· + 1)
      if seqPre pat (x :: xs) then 0 :: rest else rest

/-- Index of the first suffix of `l` satisfying `p` (absolute index, i.e.
offset from the start of `l`). -/
def findAtP (p : Bytes → Bool) : Bytes → Option Nat
  | [] => none
  | x :: xs => if p (x :: xs) then some 0 else (findAtP p xs).map (· + 1)

/-- Index of the first element satisfying `p`. -/
def firstIdxP (p : Nat → Bool) : Bytes → Option Nat
  | [] => none
  | x :: xs => if p x then some 0 else (firstIdxP p xs).map (· + 1)

/-- `bytes.Split(content, []byte("\n"))`: split on byte 10; always returns
one piece more than the number of separators (an empty input gives one
empty piece). -/
def splitLines : Bytes → List Bytes
  | [] => [[]]
  | b :: rest =>
      if b = 10 then [] :: splitLines rest
      else
        match splitLines rest with
        | [] => [[b]]
        | l :: ls => (b :: l) :: ls

/-- The shared loop shape of every secondary checker (source lines 220-300,
306-335, 349-377, 392-430 of `main.go` and the corresponding lines of the
colored variant): for each line, append the issues of that line, then stop the
whole scan as soon as `MaxErrors > 0 && len(errors) >= MaxErrors`. -/
def scanLinesAux (f : Nat → Bytes → List ValidationError) (maxErrors : Nat) :
    List Bytes → Nat → List ValidationError → List ValidationError
  | [], _, acc => acc
  | l :: rest, i, acc =>
      let acc' := acc ++ f i l
      if 0 < maxErrors ∧ maxErrors ≤ acc'.length then acc'
      else scanLinesAux f maxErrors rest (i + 1) acc'

/-! ### Model of the `regexp` package as used by the source -/

/-- RE2 (`regexp/syntax` in Go) rejects the Perl lookaround operators: a
pattern containing `(?!` or `(?=` makes `regexp.MustCompile` panic with
"invalid or unsupported Perl syntax".  (All other constructs used by the
source - literals, character classes, `(?:`, `.`, `*`, alternation,
`$`, counted repetition - are supported.) -/
def hasLookaround (pat : String) : Bool :=
  seqIn ['(', '?', '!'] pat.data || seqIn ['(', '?', '='] pat.data

/-- `regexp.MustCompile(pat)` succeeds (does not panic) for the patterns
appearing in this source. -/
def goCompiles (pat : String) : Bool := ! hasLookaround pat

/-! ### CDATA section checker: patterns and per-line issues
(`validateCDATASections`, `main.go` lines 208-303; identical in the colored
variant, lines 226-321). -/

/-- The six regex pattern literals of `validateCDATASections`, in the order
they are handed to `regexp.MustCompile` in the source. -/
def cdataPatterns : List String :=
  [ "<!\\[CDATA\\[[^a-zA-Z0-9 ]"
  , "<!\\[CDATA\\[!"
  , "<!\\[CDATA\\[(?:(?!\\]\\]>).)*$"
  , "<!\\[CDATA\\[.*<!\\[CDATA\\["
  , "<!\\[CDATA\\[.*\\]\\]>.*\\]\\]>"
  , "<!\\[CDATA\\[\\]\\]>" ]

/-- The 9-byte literal marker. -/
def markerB : Bytes := strBytes "<![CDATA["

/-- The 3-byte closing sequence. -/
def closeB : Bytes := strBytes "]]>"

/-- Byte is in the class `[a-zA-Z0-9 ]`.  (Any byte outside this set -
including lead or continuation bytes of multi-byte runes, which decode to
runes outside the class as well - makes the negated class of pattern 1
match, so the byte test agrees with the rune test of Go.) -/
def isAlnumSpace (b : Nat) : Bool :=
  (48 ≤ b && b ≤ 57) || (65 ≤ b && b ≤ 90) || (97 ≤ b && b ≤ 122) || b = 32

/-- Match of pattern 1 at the head of a suffix: marker immediately followed
by a character outside `[a-zA-Z0-9 ]`. -/
def cdataSpecialAt (sfx : Bytes) : Bool :=
  seqPre markerB sfx &&
    (match sfx.get? 9 with
     | some b => ! isAlnumSpace b
     | none => false)

/-- Match of pattern 3 at the head of a suffix under the intended
(PCRE) reading: marker with no complete `]]>` anywhere after it up to the
end of the line.  This regex never actually compiles in Go (see
`hasLookaround`); the definition only records the intent for the otherwise
unreachable scanning code. -/
def cdataUnclosedAt (sfx : Bytes) : Bool :=
  seqPre markerB sfx && ! seqIn closeB (sfx.drop 9)

/-- Match of pattern 4 at the head of a suffix: a second marker somewhere
after the first. -/
def cdataNestedAt (sfx : Bytes) : Bool :=
  seqPre markerB sfx && seqIn markerB (sfx.drop 9)

/-- Match of pattern 5 at the head of a suffix: at least two `]]>`
occurrences after the marker.  (`]]>` occurrences cannot overlap, so two
distinct occurrence indices always leave room for both `.*` pieces.) -/
def cdataMultiCloseAt (sfx : Bytes) : Bool :=
  seqPre markerB sfx && decide (2 ≤ (occList closeB (sfx.drop 9)).length)

/-- Match of pattern 6 at the head of a suffix: the literal `<![CDATA[]]>`. -/
def cdataEmptyAt (sfx : Bytes) : Bool :=
  seqPre (markerB ++ closeB) sfx

/-- `%c` of a byte: the character with that code point. -/
def charOfByte (b : Nat) : String := String.mk [Char.ofNat b]

/-- The loop body of `validateCDATASections` for one line `l` at index `i`
(source lines 220-300): each of the six rules is evaluated independently
with `FindStringIndex` (first match only) and appends at most one issue, in
rule order.  Columns are taken verbatim from the source: rules 1 and 2 use
`matches[0] + 9` (no `+ 1`), the others use `matches[0]`. -/
def cdataLineIssues (i : Nat) (l : Bytes) : List ValidationError :=
  (match findAtP cdataSpecialAt l with
   | some p =>
       let badChar := l.getD (p + 9) 0
       [{ lineNumber := i + 1, column := p + 9, line := l
        , errorType := "Special character after CDATA opening"
        , message := "Special character \x27" ++ charOfByte badChar ++
            "\x27 found immediately after CDATA opening"
        , content := markerB ++ [badChar] }]
   | none => []) ++
  (match findAtP (fun sfx => seqPre (markerB ++ [33]) sfx) l with
   | some p =>
       [{ lineNumber := i + 1, column := p + 9, line := l
        , errorType := "Exclamation mark after CDATA opening"
        , message := "Exclamation mark found immediately after CDATA opening"
        , content := markerB ++ [33] }]
   | none => []) ++
  (match findAtP cdataUnclosedAt l with
   | some p =>
       [{ lineNumber := i + 1, column := p, line := l
        , errorType := "Unclosed CDATA section"
        , message := "CDATA section is not properly closed with ]]>"
        , content := l.drop p }]
   | none => []) ++
  (match findAtP cdataNestedAt l with
   | some p =>
       -- greedy `.*`: the match ends at the end of the last marker occurrence
       let lastRel := ((occList markerB ((l.drop p).drop 9)).getLast?).getD 0
       [{ lineNumber := i + 1, column := p, line := l
        , errorType := "Nested CDATA sections"
        , message := "CDATA sections cannot be nested"
        , content := (l.drop p).take (9 + lastRel + 9) }]
   | none => []) ++
  (match findAtP cdataMultiCloseAt l with
   | some p =>
       -- greedy `.*`s: the match ends at the end of the last `]]>` occurrence
       let lastRel := ((occList closeB ((l.drop p).drop 9)).getLast?).getD 0
       [{ lineNumber := i + 1, column := p, line := l
        , errorType := "Multiple CDATA closing sequences"
        , message := "Found multiple \x27]]>\x27 sequences in a single CDATA block"
        , content := (l.drop p).take (9 + lastRel + 3) }]
   | none => []) ++
  (match findAtP cdataEmptyAt l with
   | some p =>
       [{ lineNumber := i + 1, column := p, line := l
        , errorType := "Empty CDATA section"
        , message := "CDATA section is empty"
        , content := markerB ++ closeB }]
   | none => [])

/-! ### Control character checker: per-line scan
(`validateControlCharacters`, `main.go` lines 306-338). -/

/-- First byte with value `< 32` other than tab (9), CR (13), LF (10),
together with its index.  Go iterates over runes (`for j, r := range`), but
every control code point below 32 is a single ASCII byte and every lead or
continuation byte of a multi-byte or invalid sequence decodes to a rune
≥ U+0080, so the first qualifying rune and the first qualifying byte
coincide, at the same (byte) index `j`. -/
def firstControl : Bytes → Nat → Option (Nat × Nat)
  | [], _ => none
  | b :: xs, idx =>
      if b < 32 && b ≠ 9 && b ≠ 13 && b ≠ 10 then some (idx, b)
      else firstControl xs (idx + 1)

/-- Uppercase hex digit. -/
def hexDigitU (n : Nat) : Char :=
  if n < 10 then Char.ofNat (48 + n) else Char.ofNat (55 + n)

/-- `%02X` of a byte value. -/
def hex02X (b : Nat) : String := String.mk [hexDigitU (b / 16 % 16), hexDigitU (b % 16)]

/-- The loop body of `validateControlCharacters` for one line: at most one
issue, for the first control character, then the line scan stops. -/
def ctrlLineIssues (i : Nat) (l : Bytes) : List ValidationError :=
  match firstControl l 0 with
  | some (j, b) =>
      [{ lineNumber := i + 1, column := j + 1, line := l
       , errorType := "Control character"
       , message := "Control character (hex 0x" ++ hex02X b ++ ") found"
       , content := [b] }]
  | none => []

/-! ### Hex color checker
(`validateHexColors`, `main.go` lines 341-380).  Pattern:
`#[0-9a-fA-F]\x7b1,2\x7d([^0-9a-fA-F]|$)|#[0-9a-fA-F]\x7b4,5\x7d([^0-9a-fA-F]|$)|#[0-9a-fA-F]\x7b7,\x7d`
with `FindAllStringSubmatchIndex`.  At a `#` followed by a maximal run of
`d` hex digits, exactly one alternative can match: the first if `d ∈ [1,2]`,
the second if `d ∈ [4,5]`, the third if `d ≥ 7`; for `d ∈ \x7b0,3,6\x7d`
none matches.  For the first two alternatives the code truncates the
reported text at `match[2]` (the capture group start, i.e. right after the
digits - the group also captures the empty string at end of line, so
`match[2]` is never `-1` there); for the third it uses `match[1]`.  Either
way the reported text is `#` plus the digit run, and scanning resumes after
the match (digits plus the one delimiter character, when present). -/

/-- Byte in `[0-9a-fA-F]`. -/
def isHexDigit (b : Nat) : Bool :=
  (48 ≤ b && b ≤ 57) || (97 ≤ b && b ≤ 102) || (65 ≤ b && b ≤ 70)

/-- Length of the leading run of hex-digit bytes. -/
def hexRun : Bytes → Nat
  | [] => 0
  | b :: xs => if isHexDigit b then hexRun xs + 1 else 0

/-- All matches of the invalid-hex-color pattern in a line, as
`(start index, reported hex text)` pairs, in scan order.  `fuel` makes the
jumping recursion structural; callers pass the line length, which always
suffices since each step consumes at least one byte per fuel unit. -/
def hexScan : Nat → Bytes → Nat → List (Nat × Bytes)
  | 0, _, _ => []
  | _ + 1, [], _ => []
  | fuel + 1, b :: rest, idx =>
      if b = 35 then
        let d := hexRun rest
        if (1 ≤ d && d ≤ 2) || (4 ≤ d && d ≤ 5) then
          -- delimiter (if any) is consumed by the match but excluded from the report
          (idx, 35 :: rest.take d) :: hexScan fuel (rest.drop (d + 1)) (idx + d + 2)
        else if 7 ≤ d then
          (idx, 35 :: rest.take d) :: hexScan fuel (rest.drop d) (idx + d + 1)
        else hexScan fuel rest (idx + 1)
      else hexScan fuel rest (idx + 1)

/-- The loop body of `validateHexColors` for one line: one issue per match,
column `hexStart + 1`. -/
def hexLineIssues (i : Nat) (l : Bytes) : List ValidationError :=
  (hexScan l.length l 0).map fun m =>
    { lineNumber := i + 1, column := m.1 + 1, line := l
    , errorType := "Invalid hex color"
    , message := "Invalid hex color code: " ++ bytesToStr m.2 ++
        " (should be #RGB, #RRGGBB, or #RRGGBBAA)"
    , content := m.2 }

/-! ### SVG syntax checker
(`validateSVG`, `main.go` lines 383-434). -/

/-- The SVG void-element names, in the alternation order of the pattern
`<(path|rect|circle|ellipse|line|polyline|polygon|image|use)[^>]*[^/]>`.
No name is a prefix of another, so at most one alternative can match at a
given position. -/
def svgTags : List String :=
  ["path", "rect", "circle", "ellipse", "line", "polyline", "polygon", "image", "use"]

/-- All matches of the self-closing pattern in a line that are not followed
(within the rest of the line) by a matching closer `</tag>`, as
`(start index, tag name, matched text)` triples - i.e. exactly the
occurrences for which the source emits an issue.  Matching at a position:
`<`, a tag name, then `[^>]*[^/]>`.  With `q` the first `>` after the tag
name, greedy matching first tries to use `q` itself as the `[^/]` character
(possible when the next byte is another `>`), else backtracks one step so
the `[^/]` is the byte before `q` (possible when that byte exists within
the tag and is not `/`); no shorter split can place the final `>` before
`q`.  `[^>]` and `[^/]` are rune classes, but `>` and `/` are ASCII so the
byte test agrees (a multi-byte rune never contains byte 0x3E or 0x2F).
Scanning resumes at the match end (`FindAllStringSubmatchIndex`). -/
def svgSelfScan : Nat → Bytes → Nat → List (Nat × String × Bytes)
  | 0, _, _ => []
  | _ + 1, [], _ => []
  | fuel + 1, b :: rest, idx =>
      if b = 60 then
        match svgTags.find? (fun t => seqPre (strBytes t) rest) with
        | some t =>
            let tl := (strBytes t).length
            let rem2 := rest.drop tl
            match firstIdxP (fun x => x = 62) rem2 with
            | some q =>
                if rem2.getD (q + 1) 0 = 62 then
                  -- `[^/]` consumes the first `>`, the match ends after the second
                  let endRel := 1 + tl + q + 2
                  let matched := (b :: rest).take endRel
                  let sfx := (b :: rest).drop endRel
                  (if seqIn (strBytes ("</" ++ t ++ ">")) sfx then
                    svgSelfScan fuel sfx (idx + endRel)
                  else
                    (idx, t, matched) :: svgSelfScan fuel sfx (idx + endRel))
                else if 0 < q && rem2.getD (q - 1) 0 ≠ 47 then
                  let endRel := 1 + tl + q + 1
                  let matched := (b :: rest).take endRel
                  let sfx := (b :: rest).drop endRel
                  (if seqIn (strBytes ("</" ++ t ++ ">")) sfx then
                    svgSelfScan fuel sfx (idx + endRel)
                  else
                    (idx, t, matched) :: svgSelfScan fuel sfx (idx + endRel))
                else svgSelfScan fuel rest (idx + 1)
            | none => svgSelfScan fuel rest (idx + 1)
        | none => svgSelfScan fuel rest (idx + 1)
      else svgSelfScan fuel rest (idx + 1)

/-- The attribute names of the unquoted-attribute pattern, in alternation
order. -/
def svgAttrs : List String := ["width", "height", "viewBox"]

/-- Candidate positions for the `(width|height|viewBox)=([^<quote>][^ >]*)` part
of the unquoted-attribute pattern inside `rem2` (the bytes after `<svg`),
restricted to start before `glim` (the first `>`, which `[^>]*` cannot
cross): `(relative index, attribute name bytes, captured value bytes)`. -/
def svgAttrCands (glim : Nat) : Bytes → Nat → List (Nat × Bytes × Bytes)
  | [], _ => []
  | x :: xs, pos =>
      let rest := svgAttrCands glim xs (pos + 1)
      if pos < glim then
        match svgAttrs.find? (fun a => seqPre (strBytes a) (x :: xs)) with
        | some a =>
            let ab := strBytes a
            let afterAttr := (x :: xs).drop ab.length
            match afterAttr with
            | 61 :: v0 :: vrest =>
                if v0 ≠ 34 && v0 ≠ 39 then
                  (pos, ab, v0 :: vrest.takeWhile (fun y => y ≠ 32 && y ≠ 62)) :: rest
                else rest
            | _ => rest
        | none => rest
      else rest

/-- All matches of the unquoted-attribute pattern (see `svgAttrCands`) in a
line, as `(index of the attribute name, attribute name, value)` triples.
Greedy `[^>]*` selects the last candidate before the first `>`; the match
(and hence the resumption point of `FindAll`) ends after the captured
value. -/
def svgAttrScan : Nat → Bytes → Nat → List (Nat × Bytes × Bytes)
  | 0, _, _ => []
  | _ + 1, [], _ => []
  | fuel + 1, b :: rest, idx =>
      if seqPre (strBytes "<svg") (b :: rest) then
        let rem2 := (b :: rest).drop 4
        let glim := (firstIdxP (fun x => x = 62) rem2).getD rem2.length
        match (svgAttrCands glim rem2 0).getLast? with
        | some c =>
            let endRel := 4 + c.1 + c.2.1.length + 1 + c.2.2.length
            (idx + 4 + c.1, c.2.1, c.2.2) ::
              svgAttrScan fuel ((b :: rest).drop endRel) (idx + endRel)
        | none => svgAttrScan fuel rest (idx + 1)
      else svgAttrScan fuel rest (idx + 1)

/-- The loop body of `validateSVG` for one line: self-closing issues (for
matches with no later `</tag>` on the line), then unquoted-attribute
issues. -/
def svgLineIssues (i : Nat) (l : Bytes) : List ValidationError :=
  ((svgSelfScan l.length l 0).map fun m =>
    { lineNumber := i + 1, column := m.1 + 1, line := l
    , errorType := "SVG self-closing tag issue"
    , message := "SVG <" ++ m.2.1 ++ "> tag should be self-closing with />"
    , content := m.2.2 }) ++
  ((svgAttrScan l.length l 0).map fun m =>
    { lineNumber := i + 1, column := m.1 + 1, line := l
    , errorType := "SVG unquoted attribute"
    , message := "SVG attribute " ++ bytesToStr m.2.1 ++ "=" ++ bytesToStr m.2.2 ++
        " should use quotes: " ++ bytesToStr m.2.1 ++ "=\"" ++ bytesToStr m.2.2 ++ "\""
    , content := m.2.1 ++ [61] ++ m.2.2 })

/-! ### Position resolution helpers
(`findErrorPosition`, `main.go` lines 437-469). -/

/-- Count lines and columns over a list of bytes, starting from `(1, 1)`:
a newline advances the line and resets the column (source lines 448-455). -/
def lineColCount : Bytes → Nat × Nat → Nat × Nat
  | [], lc => lc
  | b :: rest, lc =>
      if b = 10 then lineColCount rest (lc.1 + 1, 1)
      else lineColCount rest (lc.1, lc.2 + 1)

/-- Strip one trailing CR (`bufio.ScanLines` drops a final carriage
return). -/
def dropCR (l : Bytes) : Bytes :=
  if l.getLast? = some 13 then l.dropLast else l

/-- The token sequence produced by `bufio.NewScanner` with the default
line-splitting: lines split on `\n` with trailing `\r` stripped; a trailing
newline produces no final empty token, and empty input produces no
tokens. -/
def scannerLines (content : Bytes) : List Bytes :=
  (if content = [] then []
   else if content.getLast? = some 10 then (splitLines content).dropLast
   else splitLines content).map dropCR

/-! ## The plain entry point (`main.go`) -/

namespace Plain

/-- `ValidationOptions` of `main.go` (lines 28-31).  `MaxErrors` is a Go
`int`; the source only ever uses it through `MaxErrors > 0 && ...` guards
and (after such a guard) as a slice bound, so non-positive values all behave
as "unbounded" and the model uses `Nat`. -/
structure ValidationOptions where
  maxErrors : Nat
  debug : Bool
deriving DecidableEq, Repr

/-- `validateCDATASections` (lines 208-303).  The function first compiles
its six patterns with `regexp.MustCompile`; pattern 3 (`reUnclosedCDATA`)
contains the Perl lookahead `(?!`, which RE2 does not support, so the
compile panics (`none`) on every call and the scanning loop below it is
unreachable. -/
def validateCDATASections (content : Bytes) (opts : ValidationOptions) :
    Option (List ValidationError) :=
  if cdataPatterns.all goCompiles then
    some (scanLinesAux cdataLineIssues opts.maxErrors (splitLines content) 0 [])
  else none

/-- `validateControlCharacters` (lines 306-338). -/
def validateControlCharacters (content : Bytes) (opts : ValidationOptions) :
    List ValidationError :=
  scanLinesAux ctrlLineIssues opts.maxErrors (splitLines content) 0 []

/-- `validateHexColors` (lines 341-380). -/
def validateHexColors (content : Bytes) (opts : ValidationOptions) :
    List ValidationError :=
  scanLinesAux hexLineIssues opts.maxErrors (splitLines content) 0 []

/-- `validateSVG` (lines 383-434). -/
def validateSVG (content : Bytes) (opts : ValidationOptions) :
    List ValidationError :=
  scanLinesAux svgLineIssues opts.maxErrors (splitLines content) 0 []

/-- `validateXML` (lines 112-162).  The well-formedness phase
(`validateBasicXML`, lines 164-205) drives `encoding/xml`, an external
library, so its result - a list of zero or one issues in the real program -
is passed in as the `basicErrors` parameter; all theorems below quantify
over it.  The rest is the control flow of the source verbatim: append a phase,
early-return a truncated list when the budget is reached, run the secondary
checkers only when `basicErrors` is empty, and apply a final truncation.
The panic of the CDATA phase propagates as `none`. -/
def validateXML (basicErrors : List ValidationError) (content : Bytes)
    (opts : ValidationOptions) : Option (List ValidationError) :=
  let allErrors := basicErrors
  if opts.maxErrors ≤ allErrors.length ∧ 0 < opts.maxErrors then
    some (allErrors.take opts.maxErrors)
  else if basicErrors.length = 0 then
    match validateCDATASections content opts with
    | none => none
    | some cdataErrors =>
      let all2 := allErrors ++ cdataErrors
      if opts.maxErrors ≤ all2.length ∧ 0 < opts.maxErrors then
        some (all2.take opts.maxErrors)
      else
        let all3 := all2 ++ validateControlCharacters content opts
        if opts.maxErrors ≤ all3.length ∧ 0 < opts.maxErrors then
          some (all3.take opts.maxErrors)
        else
          let all4 := all3 ++ validateHexColors content opts
          if opts.maxErrors ≤ all4.length ∧ 0 < opts.maxErrors then
            some (all4.take opts.maxErrors)
          else
            let all5 := all4 ++ validateSVG content opts
            if 0 < opts.maxErrors ∧ opts.maxErrors < all5.length then
              some (all5.take opts.maxErrors)
            else some all5
  else
    if 0 < opts.maxErrors ∧ opts.maxErrors < allErrors.length then
      some (allErrors.take opts.maxErrors)
    else some allErrors

/-- `validateXML` instrumented with the list of checker functions actually
invoked, in invocation order (the "spy/counter" of the phase precedence
property of the spec).  Same control flow as `validateXML`; the name of
each checker is recorded at its call site, and the CDATA-phase panic is recorded
before the `none`. -/
def validateXMLTrace (basicErrors : List ValidationError) (content : Bytes)
    (opts : ValidationOptions) : Option (List ValidationError) × List String :=
  let phases1 := ["validateBasicXML"]
  let allErrors := basicErrors
  if opts.maxErrors ≤ allErrors.length ∧ 0 < opts.maxErrors then
    (some (allErrors.take opts.maxErrors), phases1)
  else if basicErrors.length = 0 then
    let phases2 := phases1 ++ ["validateCDATASections"]
    match validateCDATASections content opts with
    | none => (none, phases2)
    | some cdataErrors =>
      let all2 := allErrors ++ cdataErrors
      if opts.maxErrors ≤ all2.length ∧ 0 < opts.maxErrors then
        (some (all2.take opts.maxErrors), phases2)
      else
        let phases3 := phases2 ++ ["validateControlCharacters"]
        let all3 := all2 ++ validateControlCharacters content opts
        if opts.maxErrors ≤ all3.length ∧ 0 < opts.maxErrors then
          (some (all3.take opts.maxErrors), phases3)
        else
          let phases4 := phases3 ++ ["validateHexColors"]
          let all4 := all3 ++ validateHexColors content opts
          if opts.maxErrors ≤ all4.length ∧ 0 < opts.maxErrors then
            (some (all4.take opts.maxErrors), phases4)
          else
            let phases5 := phases4 ++ ["validateSVG"]
            let all5 := all4 ++ validateSVG content opts
            if 0 < opts.maxErrors ∧ opts.maxErrors < all5.length then
              (some (all5.take opts.maxErrors), phases5)
            else (some all5, phases5)
  else
    if 0 < opts.maxErrors ∧ opts.maxErrors < allErrors.length then
      (some (allErrors.take opts.maxErrors), phases1)
    else (some allErrors, phases1)

/-- `findErrorPosition` (lines 437-469): offsets out of range (negative or
`≥ len(content)`) return the defensive default `(1, 1, "")`; otherwise the
line/column are counted over the bytes before the offset and the line text
is re-extracted with a `bufio.Scanner`. -/
def findErrorPosition (content : Bytes) (offset : Int) : Nat × Nat × Bytes :=
  if offset < 0 ∨ (content.length : Int) ≤ offset then (1, 1, [])
  else
    let lc := lineColCount (content.take offset.toNat) (1, 1)
    (lc.1, lc.2, (scannerLines content).getD (lc.1 - 1) [])

end Plain

/-! ## The colored entry point (the unnamed source file) -/

namespace Colored

/-- `ValidationOptions` of the colored variant (lines 29-33): same as the
plain one plus the `Color` presentation flag, which no validation function
reads. -/
structure ValidationOptions where
  maxErrors : Nat
  debug : Bool
  color : Bool
deriving DecidableEq, Repr

/-- `validateCDATASections` of the colored variant (lines 226-321):
textually identical to the plain one, including the uncompilable pattern 3. -/
def validateCDATASections (content : Bytes) (opts : ValidationOptions) :
    Option (List ValidationError) :=
  if cdataPatterns.all goCompiles then
    some (scanLinesAux cdataLineIssues opts.maxErrors (splitLines content) 0 [])
  else none

/-- `validateControlCharacters` of the colored variant (lines 324-356). -/
def validateControlCharacters (content : Bytes) (opts : ValidationOptions) :
    List ValidationError :=
  scanLinesAux ctrlLineIssues opts.maxErrors (splitLines content) 0 []

/-- `validateHexColors` of the colored variant (lines 359-398). -/
def validateHexColors (content : Bytes) (opts : ValidationOptions) :
    List ValidationError :=
  scanLinesAux hexLineIssues opts.maxErrors (splitLines content) 0 []

/-- `validateSVG` of the colored variant (lines 401-452). -/
def validateSVG (content : Bytes) (opts : ValidationOptions) :
    List ValidationError :=
  scanLinesAux svgLineIssues opts.maxErrors (splitLines content) 0 []

/-- `validateXML` of the colored variant (lines 130-180): the same control
flow as the plain one (the only textual differences in the source body are
color wrappers around `fmt.Println` progress messages). -/
def validateXML (basicErrors : List ValidationError) (content : Bytes)
    (opts : ValidationOptions) : Option (List ValidationError) :=
  let allErrors := basicErrors
  if opts.maxErrors ≤ allErrors.length ∧ 0 < opts.maxErrors then
    some (allErrors.take opts.maxErrors)
  else if basicErrors.length = 0 then
    match validateCDATASections content opts with
    | none => none
    | some cdataErrors =>
      let all2 := allErrors ++ cdataErrors
      if opts.maxErrors ≤ all2.length ∧ 0 < opts.maxErrors then
        some (all2.take opts.maxErrors)
      else
        let all3 := all2 ++ validateControlCharacters content opts
        if opts.maxErrors ≤ all3.length ∧ 0 < opts.maxErrors then
          some (all3.take opts.maxErrors)
        else
          let all4 := all3 ++ validateHexColors content opts
          if opts.maxErrors ≤ all4.length ∧ 0 < opts.maxErrors then
            some (all4.take opts.maxErrors)
          else
            let all5 := all4 ++ validateSVG content opts
            if 0 < opts.maxErrors ∧ opts.maxErrors < all5.length then
              some (all5.take opts.maxErrors)
            else some all5
  else
    if 0 < opts.maxErrors ∧ opts.maxErrors < allErrors.length then
      some (allErrors.take opts.maxErrors)
    else some allErrors

/-- `findErrorPosition` of the colored variant (lines 455-487): identical
to the plain one. -/
def findErrorPosition (content : Bytes) (offset : Int) : Nat × Nat × Bytes :=
  if offset < 0 ∨ (content.length : Int) ≤ offset then (1, 1, [])
  else
    let lc := lineColCount (content.take offset.toNat) (1, 1)
    (lc.1, lc.2, (scannerLines content).getD (lc.1 - 1) [])

end Colored

/-- A sample well-formedness issue, standing for the single issue
`validateBasicXML` produces on a malformed document (used to instantiate
theorems that quantify over the output of the well-formedness phase). -/
def wErr : ValidationError :=
  { lineNumber := 1, column := 1, line := []
  , errorType := "Basic XML Syntax Error"
  , message := "XML syntax error", content := [] }

/-! ## Helper lemmas -/

/-- Pattern 3 (`reUnclosedCDATA`) contains `(?!`, so not all six CDATA
patterns compile. -/
lemma cdataCompile_false : cdataPatterns.all goCompiles = false := by decide

/-- `validateCDATASections` panics (modelled `none`) on every input:
`regexp.MustCompile` is reached unconditionally and pattern 3 does not
compile under RE2. -/
lemma plain_cdata_none (content : Bytes) (opts : Plain.ValidationOptions) :
    Plain.validateCDATASections content opts = none := by
  simp [Plain.validateCDATASections, cdataCompile_false]

/-- Closed form of the plain pipeline: with the CDATA phase panicking, the
pipeline either truncates/returns the well-formedness issues (when there are
any) or dies in phase 2 (when there are none). -/
lemma validateXML_eq (b : List ValidationError) (c : Bytes)
    (o : Plain.ValidationOptions) :
    Plain.validateXML b c o =
      if o.maxErrors ≤ b.length ∧ 0 < o.maxErrors then some (b.take o.maxErrors)
      else if b.length = 0 then none
      else if 0 < o.maxErrors ∧ o.maxErrors < b.length then some (b.take o.maxErrors)
      else some b := by
  simp only [Plain.validateXML, plain_cdata_none]

/-- Closed form of the instrumented pipeline. -/
lemma validateXMLTrace_eq (b : List ValidationError) (c : Bytes)
    (o : Plain.ValidationOptions) :
    Plain.validateXMLTrace b c o =
      if o.maxErrors ≤ b.length ∧ 0 < o.maxErrors then
        (some (b.take o.maxErrors), ["validateBasicXML"])
      else if b.length = 0 then
        (none, ["validateBasicXML", "validateCDATASections"])
      else if 0 < o.maxErrors ∧ o.maxErrors < b.length then
        (some (b.take o.maxErrors), ["validateBasicXML"])
      else (some b, ["validateBasicXML"]) := by
  simp only [Plain.validateXMLTrace, plain_cdata_none]
  rfl

/-- Scanning a single line ignores the budget (the break is only checked
after the last line has already been processed). -/
lemma scanLinesAux_single (f : Nat → Bytes → List ValidationError) (N : Nat)
    (l : Bytes) (i : Nat) : scanLinesAux f N [l] i [] = f i l := by
  simp [scanLinesAux]

/-- A checker applied to newline-free content processes exactly one line. -/
lemma validateHexColors_single (c : Bytes) (o : Plain.ValidationOptions)
    (h : splitLines c = [c]) :
    Plain.validateHexColors c o = hexLineIssues 0 c := by
  unfold Plain.validateHexColors
  rw [h, scanLinesAux_single]

/-- A checker applied to newline-free content processes exactly one line. -/
lemma validateSVG_single (c : Bytes) (o : Plain.ValidationOptions)
    (h : splitLines c = [c]) :
    Plain.validateSVG c o = svgLineIssues 0 c := by
  unfold Plain.validateSVG
  rw [h, scanLinesAux_single]

/-- Every element of a scan result is either from the initial accumulator or
produced by the per-line function on the line at its global index. -/
lemma scanLinesAux_mem {f : Nat → Bytes → List ValidationError} {N : Nat} :
    ∀ (lines : List Bytes) (i : Nat) (acc : List ValidationError)
      (e : ValidationError), e ∈ scanLinesAux f N lines i acc →
      e ∈ acc ∨ ∃ k, k < lines.length ∧ e ∈ f (i + k) (lines.getD k [])
  | [], i, acc, e, he => Or.inl he
  | l :: rest, i, acc, e, he => by
      rw [scanLinesAux] at he
      by_cases hc : 0 < N ∧ N ≤ (acc ++ f i l).length
      · rw [if_pos hc] at he
        rcases List.mem_append.mp he with h | h
        · exact Or.inl h
        · exact Or.inr ⟨0, by simp, by simpa using h⟩
      · rw [if_neg hc] at he
        rcases scanLinesAux_mem rest (i + 1) (acc ++ f i l) e he with h | ⟨k, hk, h⟩
        · rcases List.mem_append.mp h with h | h
          · exact Or.inl h
          · exact Or.inr ⟨0, by simp, by simpa using h⟩
        · exact Or.inr ⟨k + 1, by simpa using hk, by
            simpa [Nat.add_assoc, Nat.add_comm 1 k] using h⟩

/-- The control-character line scan yields at most one issue. -/
lemma ctrl_line_len (i : Nat) (l : Bytes) : (ctrlLineIssues i l).length ≤ 1 := by
  unfold ctrlLineIssues
  cases firstControl l 0 <;> simp

/-- Shape of a control-character issue: line `i + 1`, anchored at the first
qualifying byte. -/
lemma ctrl_line_mem {i : Nat} {l : Bytes} {e : ValidationError}
    (he : e ∈ ctrlLineIssues i l) :
    e.lineNumber = i + 1 ∧ ∃ j b, firstControl l 0 = some (j, b) ∧
      e.column = j + 1 ∧ e.errorType = "Control character" ∧ e.content = [b] := by
  unfold ctrlLineIssues at he
  cases h : firstControl l 0 with
  | none => rw [h] at he; simp at he
  | some p =>
      rw [h] at he
      simp only [List.mem_singleton] at he
      subst he
      exact ⟨rfl, p.1, p.2, rfl, rfl, rfl, rfl⟩

/-- The control-character scan produces issues with strictly increasing line
numbers. -/
lemma scanLinesAux_ctrl_sorted (N : Nat) :
    ∀ (lines : List Bytes) (i : Nat) (acc : List ValidationError),
      (∀ e ∈ acc, e.lineNumber ≤ i) →
      acc.Pairwise (fun a b => a.lineNumber < b.lineNumber) →
      (scanLinesAux ctrlLineIssues N lines i acc).Pairwise
        (fun a b => a.lineNumber < b.lineNumber)
  | [], i, acc, _, hp => hp
  | l :: rest, i, acc, hb, hp => by
      rw [scanLinesAux]
      have hp' : (acc ++ ctrlLineIssues i l).Pairwise
          (fun a b => a.lineNumber < b.lineNumber) := by
        rw [List.pairwise_append]
        refine ⟨hp, ?_, ?_⟩
        · unfold ctrlLineIssues
          cases firstControl l 0 <;> simp
        · intro a ha b hbm
          have h1 := hb a ha
          have h2 := (ctrl_line_mem hbm).1
          omega
      have hb' : ∀ e ∈ acc ++ ctrlLineIssues i l, e.lineNumber ≤ i + 1 := by
        intro e he
        rcases List.mem_append.mp he with h | h
        · exact Nat.le_succ_of_le (hb e h)
        · exact Nat.le_of_eq (ctrl_line_mem h).1
      by_cases hc : 0 < N ∧ N ≤ (acc ++ ctrlLineIssues i l).length
      · rw [if_pos hc]; exact hp'
      · rw [if_neg hc]
        exact scanLinesAux_ctrl_sorted N rest (i + 1) _ hb' hp'

/-- A list strictly sorted by line number has at most one element on any
given line. -/
lemma sorted_filter_line_le_one {l : List ValidationError} {n : Nat}
    (h : l.Pairwise (fun a b => a.lineNumber < b.lineNumber)) :
    (l.filter (fun e => e.lineNumber == n)).length ≤ 1 := by
  induction l with
  | nil => simp
  | cons a t ih =>
      rw [List.pairwise_cons] at h
      by_cases ha : a.lineNumber = n
      · have ht : t.filter (fun e => e.lineNumber == n) = [] := by
          rw [List.filter_eq_nil_iff]
          intro x hx
          have := h.1 x hx
          simp only [beq_iff_eq]
          omega
        simp [List.filter_cons, ha, ht]
      · have := ih h.2
        simp only [List.filter_cons]
        rw [if_neg (by simpa using ha)]
        exact this

/-! ## Claim theorems -/

/-- C1: the claim says every secondary checker returns an issue list for all
inputs, never crashing.  The code contradicts it: `validateCDATASections`
reaches `regexp.MustCompile` of the unclosed-CDATA pattern unconditionally,
and the negative lookahead `(?!` of that pattern is rejected by RE2, so the
function panics (modelled `none`) on every input - empty content included. -/
theorem cdata_checker_panics_on_every_input (content : Bytes)
    (opts : Plain.ValidationOptions) :
    Plain.validateCDATASections content opts = none :=
  plain_cdata_none content opts

/-- C1 witness: the panic at a concrete input (empty content). -/
theorem cdata_checker_panics_on_every_input_witness :
    Plain.validateCDATASections [] ⟨5, false⟩ = none :=
  cdata_checker_panics_on_every_input [] ⟨5, false⟩

/-- C2: the claim says the pipeline returns exactly `N` issues when the
input would otherwise yield more.  Any such input is well-formed XML (with
well-formedness issues the secondary phases are skipped and at most one
issue exists), so the pipeline reaches the CDATA phase and panics instead:
here, well-formed content with two invalid hex colors and `maxIssues = 1`
produces no result at all (`basicErrors = []` models the XML parser
accepting the input). -/
theorem budget_bound_defeated_by_cdata_crash :
    Plain.validateXML [] (strBytes "<a b=\"#12 #34\"/>") ⟨1, false⟩ = none := by
  rw [validateXML_eq]
  simp

/-- C3: the only validation datum `validateXML` hands back is the truncated
list itself: whenever it returns at all and the budget is positive, the
returned length is at most `maxErrors`.  Consequently the
`len(allErrors) > opts.MaxErrors` report in `main` of "more errors than displayed"
can never trigger, and no pre-truncation count is carried anywhere. -/
theorem pipeline_result_never_exceeds_budget (b : List ValidationError)
    (c : Bytes) (o : Plain.ValidationOptions) (r : List ValidationError)
    (h : Plain.validateXML b c o = some r) (hN : 0 < o.maxErrors) :
    r.length ≤ o.maxErrors := by
  rw [validateXML_eq] at h
  by_cases h1 : o.maxErrors ≤ b.length ∧ 0 < o.maxErrors
  · rw [if_pos h1] at h
    simp only [Option.some.injEq] at h
    subst h
    rw [List.length_take]
    omega
  · rw [if_neg h1] at h
    by_cases h2 : b.length = 0
    · rw [if_pos h2] at h
      exact absurd h (by simp)
    · rw [if_neg h2] at h
      by_cases h3 : 0 < o.maxErrors ∧ o.maxErrors < b.length
      · rw [if_pos h3] at h
        simp only [Option.some.injEq] at h
        subst h
        rw [List.length_take]
        omega
      · rw [if_neg h3] at h
        simp only [Option.some.injEq] at h
        subst h
        omega

/-- C3 witness: two well-formedness issues, budget 1, returned list of
length 1. -/
theorem pipeline_result_never_exceeds_budget_witness :
    (Plain.validateXML [wErr, wErr] [] ⟨1, false⟩ = some [wErr] ∧
      0 < (1 : Nat)) ∧ [wErr].length ≤ 1 :=
  ⟨⟨by rw [validateXML_eq]; rfl, by decide⟩,
    pipeline_result_never_exceeds_budget [wErr, wErr] [] ⟨1, false⟩ [wErr]
      (by rw [validateXML_eq]; rfl) (by decide)⟩

/-- C4: when the well-formedness phase reports any issue, the pipeline
returns (a budget-truncation of) exactly those issues, and the only checker
ever invoked is `validateBasicXML`: none of the four secondary checkers
appears in the invocation trace. -/
theorem wellformedness_gate_skips_secondary_checkers (b : List ValidationError)
    (c : Bytes) (o : Plain.ValidationOptions) (hb : b ≠ []) :
    Plain.validateXMLTrace b c o =
      (some (if o.maxErrors ≤ b.length ∧ 0 < o.maxErrors then
          b.take o.maxErrors else b),
        ["validateBasicXML"]) := by
  rw [validateXMLTrace_eq]
  have hlen : b.length ≠ 0 := by simpa using hb
  by_cases h1 : o.maxErrors ≤ b.length ∧ 0 < o.maxErrors
  · simp only [if_pos h1]
  · simp only [if_neg h1, if_neg hlen]
    by_cases h3 : 0 < o.maxErrors ∧ o.maxErrors < b.length
    · exact absurd ⟨Nat.le_of_lt h3.2, h3.1⟩ h1
    · simp only [if_neg h3]

/-- C4 witness: one well-formedness issue, default budget. -/
theorem wellformedness_gate_skips_secondary_checkers_witness :
    ([wErr] ≠ ([] : List ValidationError)) ∧
      Plain.validateXMLTrace [wErr] [] ⟨5, false⟩ =
        (some [wErr], ["validateBasicXML"]) := by
  refine ⟨by simp, ?_⟩
  have h := wellformedness_gate_skips_secondary_checkers [wErr] [] ⟨5, false⟩
    (by simp)
  rw [h, if_neg (by simp)]

/-- C5: the claim says the line `<![CDATA[!-- comment -->` yields exactly
one exclamation-mark issue and one special-character issue, both at column
10.  The code instead panics before scanning (`none`); and even its
(unreachable) scanning logic anchors both issues at `matches[0] + 9 = 9`,
not 10, because it never adds 1 to make the column 1-based. -/
theorem cdata_special_char_line_panics_and_columns_are_9 :
    Plain.validateCDATASections (strBytes "<![CDATA[!-- comment -->") ⟨5, false⟩
        = none ∧
      ((cdataLineIssues 0 (strBytes "<![CDATA[!-- comment -->")).filter
          (fun e => e.errorType == "Exclamation mark after CDATA opening")).map
          (fun e => e.column) = [9] ∧
      ((cdataLineIssues 0 (strBytes "<![CDATA[!-- comment -->")).filter
          (fun e => e.errorType == "Special character after CDATA opening")).map
          (fun e => e.column) = [9] :=
  ⟨plain_cdata_none _ _, by decide, by decide⟩

/-- C6: hex color boundary cases, each on its own line in isolation:
`#12` (2 digits), `#1234` (4 digits) and `#1234567` (7 digits) are flagged
as invalid hex colors; `#123` (3 digits) and `#123456` (6 digits) are not.
Holds for every budget, since a single line is always fully scanned. -/
theorem hex_color_boundary (o : Plain.ValidationOptions) :
    (Plain.validateHexColors (strBytes "#12") o).map (fun e => e.errorType)
        = ["Invalid hex color"] ∧
      Plain.validateHexColors (strBytes "#123") o = [] ∧
      (Plain.validateHexColors (strBytes "#1234") o).map (fun e => e.errorType)
        = ["Invalid hex color"] ∧
      Plain.validateHexColors (strBytes "#123456") o = [] ∧
      (Plain.validateHexColors (strBytes "#1234567") o).map (fun e => e.errorType)
        = ["Invalid hex color"] := by
  refine ⟨?_, ?_, ?_, ?_, ?_⟩ <;>
    rw [validateHexColors_single _ _ (by decide)] <;> decide

/-- C6 witness at a concrete budget. -/
theorem hex_color_boundary_witness :
    (Plain.validateHexColors (strBytes "#12") ⟨5, false⟩).map (fun e => e.errorType)
      = ["Invalid hex color"] :=
  (hex_color_boundary ⟨5, false⟩).1

/-- C7: on every input and budget, `validateControlCharacters` emits at most
one issue per line, and every emitted issue is anchored at the first byte of
its line with code point below 32 other than tab, CR and LF (column is that
1-based index of that byte, content is that byte); later control characters on the
same line produce nothing. -/
theorem control_char_first_per_line (content : Bytes)
    (opts : Plain.ValidationOptions) :
    (∀ n : Nat, ((Plain.validateControlCharacters content opts).filter
        (fun e => e.lineNumber == n)).length ≤ 1) ∧
      (∀ e ∈ Plain.validateControlCharacters content opts,
        ∃ j b, firstControl ((splitLines content).getD (e.lineNumber - 1) []) 0
            = some (j, b) ∧
          e.column = j + 1 ∧ e.errorType = "Control character" ∧
          e.content = [b]) := by
  constructor
  · intro n
    exact sorted_filter_line_le_one
      (scanLinesAux_ctrl_sorted opts.maxErrors (splitLines content) 0 []
        (by simp) (by simp))
  · intro e he
    unfold Plain.validateControlCharacters at he
    rcases scanLinesAux_mem (splitLines content) 0 [] e he with h | ⟨k, hk, h⟩
    · simp at h
    · rcases ctrl_line_mem h with ⟨hln, j, b, hfc, hcol, hty, hct⟩
      refine ⟨j, b, ?_, hcol, hty, hct⟩
      rw [hln]
      simpa using hfc

/-- C7 witness: a line with control bytes at columns 3 and 5 yields at most
one issue for line 1. -/
theorem control_char_first_per_line_witness :
    ((Plain.validateControlCharacters [65, 66, 1, 67, 2, 68] ⟨5, false⟩).filter
      (fun e => e.lineNumber == 1)).length ≤ 1 :=
  (control_char_first_per_line [65, 66, 1, 67, 2, 68] ⟨5, false⟩).1 1

/-- C8: `findErrorPosition` returns the defensive default `(1, 1, "")` for
every out-of-range byte offset - negative or at/past the content length,
including the offset exactly equal to the length - without failing. -/
theorem position_resolver_defensive_default (content : Bytes) (offset : Int)
    (h : offset < 0 ∨ (content.length : Int) ≤ offset) :
    Plain.findErrorPosition content offset = (1, 1, []) := by
  unfold Plain.findErrorPosition
  rw [if_pos h]

/-- C8 witness: offset equal to the content length. -/
theorem position_resolver_defensive_default_witness :
    (((2 : Int) < 0 ∨ ((strBytes "ab").length : Int) ≤ 2) ∧
      Plain.findErrorPosition (strBytes "ab") 2 = (1, 1, [])) :=
  ⟨Or.inr (by decide),
    position_resolver_defensive_default (strBytes "ab") 2 (Or.inr (by decide))⟩

/-- C9: the two entry points validate identically: for every well-formedness
result, content and option values, the plain `validateXML` and the colored
`validateXML` return the same result (issue for issue), with the extra
`Color` flag of the colored variant having no influence - the variants differ only in
presentation. -/
theorem plain_and_colored_validate_identically (basicErrors : List ValidationError)
    (content : Bytes) (m : Nat) (d col : Bool) :
    Plain.validateXML basicErrors content ⟨m, d⟩ =
      Colored.validateXML basicErrors content ⟨m, d, col⟩ := rfl

/-- C9 witness at concrete values. -/
theorem plain_and_colored_validate_identically_witness :
    Plain.validateXML [] [60] ⟨5, false⟩ =
      Colored.validateXML [] [60] ⟨5, false, true⟩ :=
  plain_and_colored_validate_identically [] [60] 5 false true

/-- C10: the self-closing SVG pattern `<tag[^>]*[^/]>` needs at least one
character between the tag name and the closing `>`, so the bare text
`<rect>` is never flagged, while `<rect >` and `<rect x="1">` (no later
`</rect>` on the line) each yield exactly one self-closing issue. -/
theorem svg_bare_void_element_not_flagged (o : Plain.ValidationOptions) :
    Plain.validateSVG (strBytes "<rect>") o = [] ∧
      (Plain.validateSVG (strBytes "<rect >") o).map
          (fun e => (e.errorType, e.column)) =
        [("SVG self-closing tag issue", 1)] ∧
      (Plain.validateSVG (strBytes "<rect x=\"1\">") o).map
          (fun e => (e.errorType, e.column)) =
        [("SVG self-closing tag issue", 1)] := by
  refine ⟨?_, ?_, ?_⟩ <;>
    rw [validateSVG_single _ _ (by decide)] <;> decide

/-- C10 witness at a concrete budget. -/
theorem svg_bare_void_element_not_flagged_witness :
    Plain.validateSVG (strBytes "<rect>") ⟨5, false⟩ = [] :=
  (svg_bare_void_element_not_flagged ⟨5, false⟩).1

end XmlValidator
